import Mathlib

/-!
Verification development for the WhiplashXLM backend (`src/server.py`).

The file shallowly embeds the data model and operations of the backend:
the Stellar account-balance parsing loop of `StellarService.get_account_balances`,
the HTTP error mapping of the service and of the wallet endpoints, the
public-key validation delegated to the `stellar_sdk` strkey decoder, the
status-check store operations, the environment-variable configuration, and
the tier calculator (present only in the specification, modelled from it).
Machine integers are `Nat` with explicit `% 2 ^ w` where overflow matters;
fallible code returns `Except`/`Option`.
-/

namespace WlxBackend

/-- Line 33 of `src/server.py`: the Horizon endpoint URL, a string literal. -/
def STELLAR_HORIZON_URL : String := "https://horizon.stellar.org"

/-- Line 34 of `src/server.py`: the tracked-asset issuing account, a string literal. -/
def WLX_ISSUER : String := "GBG5YTLEZ6PLZ33TIF2IGYPAEJ66ES4A5JOX7SRQVEZY55WRACDEWZPV"

/-! ## Strkey public-key validation

`WalletBalanceRequest.validate_public_key` (line 57) and `get_wlx_balance`
(line 211) both call the third-party `stellar_sdk.Keypair.from_public_key`,
which strkey-decodes the string: RFC 4648 base32 decode, version byte
`6 <<< 3 = 48` (the byte that makes the first character `'G'`), a CRC16-XModem
checksum over the first 33 bytes stored little-endian in the last 2 bytes,
and a 32-byte ed25519 payload.  Only a 56-character base32 string decodes to
the required 35 bytes, so every other length is rejected. -/

/-- Value of one RFC 4648 base32 character (`A`–`Z` ↦ 0–25, `2`–`7` ↦ 26–31). -/
def b32Val (c : Char) : Option Nat :=
  if 65 ≤ c.toNat ∧ c.toNat ≤ 90 then some (c.toNat - 65)
  else if 50 ≤ c.toNat ∧ c.toNat ≤ 55 then some (c.toNat - 24)
  else none

/-- Base32 decode accumulated into a single natural number (5 bits per character). -/
def b32NatAux (acc : Option Nat) (cs : List Char) : Option Nat :=
  match cs with
  | [] => acc
  | c :: cs => b32NatAux (acc.bind (fun n => (b32Val c).map (fun v => n * 32 + v))) cs

/-- Byte `i` (big-endian, 0-based) of the 35-byte strkey decoding of a
280-bit number. -/
def byteAt (n i : Nat) : Nat := n / 2 ^ (8 * (34 - i)) % 256

/-- The 35 decoded strkey bytes of a candidate account-id string, or `none`
when the string is not a 56-character base32 string. -/
def strkeyBytes (s : String) : Option (List Nat) :=
  if s.data.length = 56 then
    (b32NatAux (some 0) s.data).map (fun n => (List.range 35).map (byteAt n))
  else none

/-- One shift step of CRC16-XModem (polynomial `0x1021`), state kept below `2 ^ 16`. -/
def crc16Bit (c : Nat) : Nat :=
  if c / 32768 % 2 = 1 then ((c * 2) ^^^ 4129) % 65536 else (c * 2) % 65536

/-- Absorb one byte into the CRC16-XModem state. -/
def crc16Byte (crc b : Nat) : Nat :=
  (List.range 8).foldl (fun c _ => crc16Bit c) ((crc ^^^ (b * 256)) % 65536)

/-- CRC16-XModem of a byte sequence, initial state 0. -/
def crc16 (bytes : List Nat) : Nat := bytes.foldl crc16Byte 0

/-- The validation performed by `stellar_sdk.Keypair.from_public_key`, the
third-party parser that `src/server.py` delegates public-key validation to
(lines 57 and 211): strkey decode with the ed25519-public-key version byte 48
and a valid CRC16-XModem checksum. -/
def is_valid_account_id (s : String) : Bool :=
  match strkeyBytes s with
  | none => false
  | some bytes =>
      decide (bytes.head? = some 48 ∧
        bytes.drop 33 = [crc16 (bytes.take 33) % 256, crc16 (bytes.take 33) / 256])

/-! ## Data model (pydantic models, lines 43–80) -/

/-- One entry of the Horizon `balances` array as consumed by the parsing loop
(lines 104–123): `asset_code`, `asset_issuer` and `limit` are read with
`.get` and may be absent, `balance` and `asset_type` are always present. -/
structure HorizonBalance where
  asset_code : Option String
  asset_issuer : Option String
  balance : String
  asset_type : String
  limit : Option String
deriving DecidableEq, Repr

/-- The Horizon account record used by `get_account_balances`. -/
structure AccountResponse where
  account_id : String
  balances : List HorizonBalance
deriving DecidableEq, Repr

/-- The `AssetBalance` model (lines 62–67). -/
structure AssetBalance where
  asset_code : String
  asset_issuer : Option String
  balance : String
  asset_type : String
  limit : Option String
deriving DecidableEq, Repr

/-- The `WalletBalanceResponse` model (lines 69–75); the generated timestamp carries no
information relevant to any claim and is omitted. -/
structure WalletBalanceResponse where
  account_id : String
  native_balance : String
  wlx_balance : Option String
  has_wlx : Bool
  all_balances : List AssetBalance
deriving DecidableEq, Repr

/-- An `HTTPException(status_code, detail)` raised by the handlers. -/
structure HTTPError where
  status_code : Nat
  detail : String
deriving DecidableEq, Repr

/-- Outcome of the ledger call
`self.server.accounts().account_id(public_key).call()` (line 95): success,
`NotFoundError`, `ConnectionError`, or any other exception. -/
inductive LedgerOutcome where
  | success (acct : AccountResponse)
  | notFound
  | connectionFailure (msg : String)
  | otherFailure (msg : String)
deriving DecidableEq, Repr

/-! ## The balance-parsing loop (lines 99–123) -/

/-- The condition of line 119: `balance.get('asset_code') == 'WLX' and
balance.get('asset_issuer') == WLX_ISSUER`. -/
def isWlxEntry (b : HorizonBalance) : Bool :=
  b.asset_code = some "WLX" && b.asset_issuer = some WLX_ISSUER

/-- The condition of line 115: `balance['asset_type'] == 'native'`. -/
def isNativeEntry (b : HorizonBalance) : Bool :=
  b.asset_type = "native"

/-- Construction of one `AssetBalance` (lines 105–111); `asset_code`
defaults to `"XLM"` when absent. -/
def toAssetBalance (b : HorizonBalance) : AssetBalance :=
  { asset_code := b.asset_code.getD "XLM"
    asset_issuer := b.asset_issuer
    balance := b.balance
    asset_type := b.asset_type
    limit := b.limit }

/-- The four loop variables of lines 99–102. -/
structure ParseState where
  all_balances : List AssetBalance
  native_balance : String
  wlx_balance : Option String
  has_wlx : Bool
deriving DecidableEq, Repr

/-- One iteration of the `for balance in account_response['balances']` loop
(lines 104–123). -/
def parseStep (st : ParseState) (b : HorizonBalance) : ParseState :=
  { all_balances := st.all_balances ++ [toAssetBalance b]
    native_balance := if isNativeEntry b then b.balance else st.native_balance
    wlx_balance := if isWlxEntry b then some b.balance else st.wlx_balance
    has_wlx := if isWlxEntry b then true else st.has_wlx }

/-- Initial loop state (lines 99–102): empty list, `"0"`, `None`, `False`. -/
def initState : ParseState := ⟨[], "0", none, false⟩

/-- The whole parsing loop. -/
def parseBalances (l : List HorizonBalance) : ParseState :=
  l.foldl parseStep initState

/-! ## The service and the endpoints -/

/-- The service method `StellarService.get_account_balances` (lines 89–153): parse a successful
ledger response into a `WalletBalanceResponse`; map `NotFoundError` to a 404,
`ConnectionError` to a 503 and any other exception to a 500 whose detail is a
fixed string independent of the exception message. -/
def get_account_balances (public_key : String) (outcome : LedgerOutcome) :
    Except HTTPError WalletBalanceResponse :=
  match outcome with
  | .success acct =>
      let st := parseBalances acct.balances
      .ok { account_id := acct.account_id
            native_balance := st.native_balance
            wlx_balance := st.wlx_balance
            has_wlx := st.has_wlx
            all_balances := st.all_balances }
  | .notFound =>
      .error ⟨404, "Account " ++ public_key ++
        " not found on Stellar network. Please verify the public key is correct."⟩
  | .connectionFailure _ =>
      .error ⟨503, "Unable to connect to Stellar network. Please try again later."⟩
  | .otherFailure _ =>
      .error ⟨500, "Internal server error occurred while fetching balance."⟩

/-- Endpoint `POST /api/wallet/balance` (lines 179–199).  Request construction runs
the pydantic validator `validate_public_key` (lines 54–60), which FastAPI
surfaces as a 422 request-validation error carrying the `ValueError` message;
a validated request is passed to the service, whose `HTTPException`s are
re-raised unchanged (lines 191–193). -/
def get_wallet_balance (public_key : String) (outcome : LedgerOutcome) :
    Except HTTPError WalletBalanceResponse :=
  if is_valid_account_id public_key then get_account_balances public_key outcome
  else .error ⟨422, "Invalid Stellar public key format"⟩

/-- The body returned by `GET /api/wallet/{public_key}/wlx` (lines 221–227);
the generated timestamp is omitted. -/
structure WlxBalanceResponse where
  account_id : String
  wlx_balance : Option String
  has_wlx : Bool
  native_balance : String
deriving DecidableEq, Repr

/-- Endpoint `GET /api/wallet/{public_key}/wlx` (lines 201–237): reject a key the
strkey parser refuses with a 400 before any ledger call; otherwise call the
service, re-raising its `HTTPException`s unchanged and projecting a success
onto the four response fields. -/
def get_wlx_balance (public_key : String) (outcome : LedgerOutcome) :
    Except HTTPError WlxBalanceResponse :=
  if is_valid_account_id public_key then
    match get_account_balances public_key outcome with
    | .ok r => .ok ⟨public_key, r.wlx_balance, r.has_wlx, r.native_balance⟩
    | .error e => .error e
  else .error ⟨400, "Invalid Stellar public key format"⟩

/-! ## Status checks (lines 43–49 and 166–176) -/

/-- The `StatusCheck` model (lines 43–46); the datetime is modelled as a `Nat`. -/
structure StatusCheck where
  id : String
  client_name : String
  timestamp : Nat
deriving DecidableEq, Repr

/-- The `StatusCheckCreate` model (lines 48–49). -/
structure StatusCheckCreate where
  client_name : String
deriving DecidableEq, Repr

/-- Endpoint `POST /api/status` (lines 166–171): build a `StatusCheck` from the input,
insert its dict into the store, and return it.  The generated UUID and
timestamp are modelled as explicit parameters; the store is the list of
inserted documents in insertion order.  Returns the response body and the
new store state. -/
def create_status_check (store : List StatusCheck) (input : StatusCheckCreate)
    (gen_id : String) (gen_ts : Nat) : StatusCheck × List StatusCheck :=
  let status_obj : StatusCheck := ⟨gen_id, input.client_name, gen_ts⟩
  (status_obj, store ++ [status_obj])

/-- Endpoint `GET /api/status` (lines 173–176): `db.status_checks.find().to_list(1000)`
returns at most the first 1000 stored documents. -/
def get_status_checks (store : List StatusCheck) : List StatusCheck :=
  store.take 1000

/-! ## Configuration (lines 21–23, 33–34, 256)

The process environment is modelled as a partial map from variable names to
values. -/

/-- Line 21: `mongo_url = os.environ['MONGO_URL']` (a `KeyError` when absent
is modelled by `none`). -/
def mongo_url (env : String → Option String) : Option String := env "MONGO_URL"

/-- Line 23: `db = client[os.environ['DB_NAME']]`. -/
def db_name (env : String → Option String) : Option String := env "DB_NAME"

/-- Line 33: the Horizon URL the service is built from is the string literal
`STELLAR_HORIZON_URL`; the environment is not consulted. -/
def effective_horizon_url (env : String → Option String) : String :=
  STELLAR_HORIZON_URL

/-- Line 34: the tracked-asset issuer is the string literal `WLX_ISSUER`;
the environment is not consulted.  The asset code is the literal `"WLX"`
(line 86). -/
def effective_wlx_issuer (env : String → Option String) : String :=
  WLX_ISSUER

/-- Line 256: `os.environ.get('CORS_ORIGINS', '*').split(',')`. -/
def cors_origins (env : String → Option String) : List String :=
  ((env "CORS_ORIGINS").getD "*").splitOn ","

/-! ## Last-match helper

The loop of lines 104–123 lets a later matching entry overwrite an earlier
one, so both the native and the WLX fields record the last matching entry. -/

/-- Accumulator transition recording the last entry satisfying `p`. -/
def lastStep (p : HorizonBalance → Bool) (acc : Option HorizonBalance)
    (b : HorizonBalance) : Option HorizonBalance :=
  if p b then some b else acc

/-- The last entry of `l` satisfying `p`, if any. -/
def lastMatch (p : HorizonBalance → Bool) (l : List HorizonBalance) :
    Option HorizonBalance :=
  l.foldl (lastStep p) none

/-! ## Concrete fixtures used by witnesses and counterexamples -/

/-- A structurally valid ed25519 account id: version byte 48, 32 zero payload
bytes, correct CRC16 checksum. -/
def gValidKey : String := "GAAAAAAAAAAAAAAAAAAAAAAAAAAAAAAAAAAAAAAAAAAAAAAAAAAAAWHF"

/-- The character `'G'` followed by 55 `'A'`s: first character `G`, length 56, but an
invalid strkey checksum. -/
def gBadKey : String := String.mk ('G' :: List.replicate 55 'A')

/-- A Horizon balance entry for the tracked WLX asset. -/
def wlxEntry : HorizonBalance :=
  ⟨some "WLX", some WLX_ISSUER, "5", "credit_alphanum4", some "1000"⟩

/-- A Horizon balance entry for the native asset. -/
def nativeEntry : HorizonBalance := ⟨none, none, "12.5", "native", none⟩

/-- An account holding the native asset and the tracked asset. -/
def acctW : AccountResponse := ⟨gValidKey, [nativeEntry, wlxEntry]⟩

/-- An account holding only the tracked asset. -/
def acctNoNative : AccountResponse := ⟨gValidKey, [wlxEntry]⟩

/-- An account holding nothing. -/
def acctEmpty : AccountResponse := ⟨gValidKey, []⟩

/-- The response the service computes for `acctW`. -/
def respW : WalletBalanceResponse :=
  ⟨gValidKey, "12.5", some "5", true,
    [⟨"XLM", none, "12.5", "native", none⟩,
     ⟨"WLX", some WLX_ISSUER, "5", "credit_alphanum4", some "1000"⟩]⟩

/-- The response the service computes for `acctNoNative`. -/
def respNoNative : WalletBalanceResponse :=
  ⟨gValidKey, "0", some "5", true,
    [⟨"WLX", some WLX_ISSUER, "5", "credit_alphanum4", some "1000"⟩]⟩

/-- The body the WLX endpoint computes for `acctW`. -/
def wlxRespW : WlxBalanceResponse := ⟨gValidKey, some "5", true, "12.5"⟩

/-- A stored status-check record. -/
def rxStatus : StatusCheck := ⟨"id-a", "client", 0⟩

/-- A second, distinct status-check record. -/
def ryStatus : StatusCheck := ⟨"id-b", "client", 0⟩

/-- A store already holding 1000 records followed by one more insertion. -/
def overfullStore : List StatusCheck := List.replicate 1000 rxStatus ++ [ryStatus]

/-- An environment assigning values to the ledger-endpoint and issuer
variables. -/
def envOverride : String → Option String := fun k =>
  if k = "STELLAR_HORIZON_URL" then some "http://horizon.example"
  else if k = "WLX_ISSUER" then some "GOTHERISSUERXXXXXXXXXXXXXXXXXXXXXXXXXXXXXXXXXXXXXXXXXXXX"
  else none

/-- An environment assigning the database and CORS variables. -/
def envFull : String → Option String := fun k =>
  if k = "MONGO_URL" then some "mongodb://localhost:27017"
  else if k = "DB_NAME" then some "wlx"
  else if k = "CORS_ORIGINS" then some "http://a.example,http://b.example"
  else none

/-! ## Tier calculator -/

/-- Modelled from the spec: the revision under `src/` contains no tier
calculator (`POST /api/wallet/tier` and `tier_for` exist only in other
revisions), so the calculator is taken verbatim from the spec's rule table
(§4.1): chained inclusive-range checks evaluated top to bottom, first match
wins, with the sentinel `"Contact Support"` when no rule matches. -/
def tier_for (a : ℚ) : String :=
  if 200 ≤ a ∧ a ≤ 598 then "0.274–0.819 XLM"
  else if 600 ≤ a ∧ a ≤ 1998 then "0.822–2.739 XLM"
  else if 2000 ≤ a ∧ a ≤ 5998 then "2.740–8.217 XLM"
  else if 6000 ≤ a ∧ a ≤ 19998 then "8.219–27.397 XLM"
  else if 20000 ≤ a ∧ a ≤ 49998 then "27.397–68.475 XLM"
  else if 50000 ≤ a ∧ a ≤ 99998 then "68.475–136.986 XLM"
  else if 100000 ≤ a ∧ a ≤ 200000 then "137–274 XLM"
  else if 240000 ≤ a ∧ a ≤ 400000 then "329–548 XLM"
  else if 400000 < a then "548+ XLM"
  else "Contact Support"

/-! ## Lemmas about the last-match fold -/

theorem foldl_lastStep_of_all_false (p : HorizonBalance → Bool) :
    ∀ (l : List HorizonBalance) (acc : Option HorizonBalance),
      (∀ b ∈ l, p b = false) → l.foldl (lastStep p) acc = acc := by
  intro l
  induction l with
  | nil => intro acc _; rfl
  | cons b l ih =>
      intro acc h
      have hb : p b = false := h b (List.mem_cons_self b l)
      have h' : ∀ x ∈ l, p x = false := fun x hx => h x (List.mem_cons_of_mem b hx)
      simp only [List.foldl_cons, lastStep, hb, Bool.false_eq_true, if_false]
      exact ih acc h'

theorem foldl_lastStep_isSome (p : HorizonBalance → Bool) :
    ∀ (l : List HorizonBalance) (acc : Option HorizonBalance),
      acc.isSome = true → (l.foldl (lastStep p) acc).isSome = true := by
  intro l
  induction l with
  | nil => intro acc h; exact h
  | cons b l ih =>
      intro acc h
      simp only [List.foldl_cons]
      apply ih
      cases hb : p b <;> simp [lastStep, hb, h]

theorem foldl_lastStep_eq_some (p : HorizonBalance → Bool) :
    ∀ (l : List HorizonBalance) (acc : Option HorizonBalance) (e : HorizonBalance),
      l.foldl (lastStep p) acc = some e →
      acc = some e ∨ (e ∈ l ∧ p e = true) := by
  intro l
  induction l with
  | nil => intro acc e h; exact Or.inl h
  | cons b l ih =>
      intro acc e h
      simp only [List.foldl_cons] at h
      rcases ih (lastStep p acc b) e h with h' | h'
      · cases hb : p b with
        | true =>
            simp only [lastStep, hb, if_true] at h'
            injection h' with h'
            exact Or.inr ⟨h' ▸ List.mem_cons_self b l, h' ▸ hb⟩
        | false =>
            simp only [lastStep, hb, Bool.false_eq_true, if_false] at h'
            exact Or.inl h'
      · exact Or.inr ⟨List.mem_cons_of_mem b h'.1, h'.2⟩

theorem foldl_lastStep_of_exists (p : HorizonBalance → Bool) :
    ∀ (l : List HorizonBalance) (acc : Option HorizonBalance),
      (∃ e ∈ l, p e = true) → (l.foldl (lastStep p) acc).isSome = true := by
  intro l
  induction l with
  | nil => intro acc h; exact absurd h (by simp)
  | cons b l ih =>
      intro acc h
      simp only [List.foldl_cons]
      rcases h with ⟨e, he, hp⟩
      rcases List.mem_cons.mp he with rfl | he'
      · apply foldl_lastStep_isSome
        simp [lastStep, hp]
      · exact ih _ ⟨e, he', hp⟩

theorem foldl_lastStep_of_filter_singleton (p : HorizonBalance → Bool) :
    ∀ (l : List HorizonBalance) (acc : Option HorizonBalance) (e : HorizonBalance),
      l.filter p = [e] → l.foldl (lastStep p) acc = some e := by
  intro l
  induction l with
  | nil => intro acc e h; exact absurd h (by simp)
  | cons b l ih =>
      intro acc e h
      simp only [List.foldl_cons]
      cases hb : p b with
      | true =>
          rw [List.filter_cons_of_pos hb] at h
          injection h with hbe h
          subst hbe
          have hnil : ∀ x ∈ l, p x = false := by
            intro x hx
            have := List.filter_eq_nil_iff.mp h x hx
            exact Bool.not_eq_true _ ▸ (by simpa using this)
          rw [foldl_lastStep_of_all_false p l _ hnil]
          simp [lastStep, hb]
      | false =>
          rw [List.filter_cons_of_neg (by simp [hb])] at h
          exact ih _ e h

/-! ## Lemmas connecting the parsing loop to the last-match fold -/

theorem parse_wlx_spec :
    ∀ (l : List HorizonBalance) (st : ParseState) (acc : Option HorizonBalance),
      st.wlx_balance = acc.map (fun e => e.balance) →
      st.has_wlx = acc.isSome →
      (l.foldl parseStep st).wlx_balance =
          (l.foldl (lastStep isWlxEntry) acc).map (fun e => e.balance) ∧
        (l.foldl parseStep st).has_wlx = (l.foldl (lastStep isWlxEntry) acc).isSome := by
  intro l
  induction l with
  | nil => intro st acc h1 h2; exact ⟨h1, h2⟩
  | cons b l ih =>
      intro st acc h1 h2
      simp only [List.foldl_cons]
      apply ih
      · cases hb : isWlxEntry b <;> simp [parseStep, lastStep, hb, h1]
      · cases hb : isWlxEntry b <;> simp [parseStep, lastStep, hb, h2]

theorem parseBalances_wlx (l : List HorizonBalance) :
    (parseBalances l).wlx_balance = (lastMatch isWlxEntry l).map (fun e => e.balance) ∧
      (parseBalances l).has_wlx = (lastMatch isWlxEntry l).isSome :=
  parse_wlx_spec l initState none rfl rfl

theorem parse_native_spec :
    ∀ (l : List HorizonBalance) (st : ParseState) (acc : Option HorizonBalance),
      st.native_balance = acc.elim "0" (fun e => e.balance) →
      (l.foldl parseStep st).native_balance =
        (l.foldl (lastStep isNativeEntry) acc).elim "0" (fun e => e.balance) := by
  intro l
  induction l with
  | nil => intro st acc h1; exact h1
  | cons b l ih =>
      intro st acc h1
      simp only [List.foldl_cons]
      apply ih
      cases hb : isNativeEntry b <;> simp [parseStep, lastStep, hb, h1]

theorem parseBalances_native (l : List HorizonBalance) :
    (parseBalances l).native_balance =
      (lastMatch isNativeEntry l).elim "0" (fun e => e.balance) :=
  parse_native_spec l initState none rfl

theorem isWlxEntry_eq_true_iff (e : HorizonBalance) :
    isWlxEntry e = true ↔
      e.asset_code = some "WLX" ∧ e.asset_issuer = some WLX_ISSUER := by
  simp [isWlxEntry]

/-! ## Claim C8 -/

/-- C8: every `WalletBalanceResponse` produced by `get_account_balances`
satisfies the invariant `has_wlx = true` iff `wlx_balance` is not null:
the flag and the balance field are set together or left unset together. -/
theorem C8_has_wlx_iff_balance (public_key : String) (acct : AccountResponse)
    (r : WalletBalanceResponse)
    (h : get_account_balances public_key (.success acct) = .ok r) :
    (r.has_wlx = true ↔ r.wlx_balance ≠ none) := by
  simp only [get_account_balances] at h
  rw [Except.ok.injEq] at h
  subst h
  show (parseBalances acct.balances).has_wlx = true ↔
    (parseBalances acct.balances).wlx_balance ≠ none
  rw [(parseBalances_wlx acct.balances).1, (parseBalances_wlx acct.balances).2]
  cases lastMatch isWlxEntry acct.balances <;> simp

/-- Witness for C8 at a concrete account holding the tracked asset. -/
theorem C8_has_wlx_iff_balance_witness :
    respW.has_wlx = true ↔ respW.wlx_balance ≠ none :=
  C8_has_wlx_iff_balance gValidKey acctW respW rfl

/-! ## Claim C9 -/

/-- C9: if the ledger's balance list has no entry with `asset_type` `native`,
the parsed `native_balance` is the string default `"0"`; if the native entry
exists (the list filtered to native entries is exactly that one entry), the
parsed `native_balance` is that entry's balance string. -/
theorem C9_native_balance (public_key : String) (acct : AccountResponse)
    (r : WalletBalanceResponse)
    (h : get_account_balances public_key (.success acct) = .ok r) :
    (acct.balances.filter isNativeEntry = [] → r.native_balance = "0") ∧
      (∀ e, acct.balances.filter isNativeEntry = [e] →
        r.native_balance = e.balance) := by
  simp only [get_account_balances] at h
  rw [Except.ok.injEq] at h
  subst h
  constructor
  · intro hf
    show (parseBalances acct.balances).native_balance = "0"
    rw [parseBalances_native]
    have hall : ∀ b ∈ acct.balances, isNativeEntry b = false := by
      intro b hb
      simpa using List.filter_eq_nil_iff.mp hf b hb
    rw [lastMatch, foldl_lastStep_of_all_false _ _ _ hall]
    rfl
  · intro e hf
    show (parseBalances acct.balances).native_balance = e.balance
    rw [parseBalances_native]
    rw [lastMatch, foldl_lastStep_of_filter_singleton _ _ _ _ hf]
    rfl

/-- Witness for C9: an account with no native entry and one with exactly
one native entry. -/
theorem C9_native_balance_witness :
    respNoNative.native_balance = "0" ∧ respW.native_balance = nativeEntry.balance :=
  ⟨(C9_native_balance gValidKey acctNoNative respNoNative rfl).1 rfl,
   (C9_native_balance gValidKey acctW respW rfl).2 nativeEntry rfl⟩

/-! ## Claim C3 -/

/-- C3: for every successful ledger response, the WLX endpoint reports
`has_wlx = true` with `wlx_balance` the balance string of a matching entry
exactly when the balance list contains an entry whose `asset_code` is `WLX`
and whose `asset_issuer` is the tracked issuer; otherwise it reports
`has_wlx = false` and `wlx_balance = null`. -/
theorem C3_wlx_flag (public_key : String) (acct : AccountResponse)
    (r : WlxBalanceResponse)
    (hv : is_valid_account_id public_key = true)
    (h : get_wlx_balance public_key (.success acct) = .ok r) :
    ((∃ e ∈ acct.balances,
        e.asset_code = some "WLX" ∧ e.asset_issuer = some WLX_ISSUER) →
      r.has_wlx = true ∧
        ∃ e ∈ acct.balances,
          e.asset_code = some "WLX" ∧ e.asset_issuer = some WLX_ISSUER ∧
            r.wlx_balance = some e.balance) ∧
    ((∀ e ∈ acct.balances,
        ¬(e.asset_code = some "WLX" ∧ e.asset_issuer = some WLX_ISSUER)) →
      r.has_wlx = false ∧ r.wlx_balance = none) := by
  unfold get_wlx_balance at h
  rw [if_pos hv] at h
  simp only [get_account_balances] at h
  rw [Except.ok.injEq] at h
  subst h
  constructor
  · rintro ⟨e, he, hc⟩
    have hwlx : isWlxEntry e = true := (isWlxEntry_eq_true_iff e).mpr hc
    have hsome : (lastMatch isWlxEntry acct.balances).isSome = true :=
      foldl_lastStep_of_exists _ _ _ ⟨e, he, hwlx⟩
    obtain ⟨x, hx⟩ := Option.isSome_iff_exists.mp hsome
    have hx' := foldl_lastStep_eq_some isWlxEntry acct.balances none x hx
    rcases hx' with h' | h'
    · exact absurd h' (by simp)
    refine ⟨?_, x, h'.1, ((isWlxEntry_eq_true_iff x).mp h'.2).1,
      ((isWlxEntry_eq_true_iff x).mp h'.2).2, ?_⟩
    · show (parseBalances acct.balances).has_wlx = true
      rw [(parseBalances_wlx acct.balances).2, hx]
      rfl
    · show (parseBalances acct.balances).wlx_balance = some x.balance
      rw [(parseBalances_wlx acct.balances).1, hx]
      rfl
  · intro hall
    have hfalse : ∀ b ∈ acct.balances, isWlxEntry b = false := by
      intro b hb
      cases hcase : isWlxEntry b
      · rfl
      · exact absurd ((isWlxEntry_eq_true_iff b).mp hcase) (hall b hb)
    have hnone : lastMatch isWlxEntry acct.balances = none :=
      foldl_lastStep_of_all_false _ _ _ hfalse
    constructor
    · show (parseBalances acct.balances).has_wlx = false
      rw [(parseBalances_wlx acct.balances).2, hnone]
      rfl
    · show (parseBalances acct.balances).wlx_balance = none
      rw [(parseBalances_wlx acct.balances).1, hnone]
      rfl

set_option maxRecDepth 100000 in
set_option exponentiation.threshold 300 in
/-- Witness for C3 at a concrete valid key and an account holding WLX. -/
theorem C3_wlx_flag_witness :
    wlxRespW.has_wlx = true ∧
      ∃ e ∈ acctW.balances,
        e.asset_code = some "WLX" ∧ e.asset_issuer = some WLX_ISSUER ∧
          wlxRespW.wlx_balance = some e.balance :=
  (C3_wlx_flag gValidKey acctW wlxRespW (by decide) rfl).1 (by decide)

/-! ## Claim C1 -/

/-- C1: every call of `get_account_balances` (and hence of the two wallet
endpoints, which pass its `HTTPException`s through unchanged) surfaces
exactly three failure kinds: ledger not-found becomes a 404, a ledger
connection failure becomes a 503, and any other exception becomes a 500
whose detail is a fixed string independent of the exception message. -/
theorem C1_failure_kinds (public_key msg : String) (acct : AccountResponse)
    (outcome : LedgerOutcome) (hv : is_valid_account_id public_key = true) :
    get_account_balances public_key .notFound =
        .error ⟨404, "Account " ++ public_key ++
          " not found on Stellar network. Please verify the public key is correct."⟩ ∧
      get_account_balances public_key (.connectionFailure msg) =
        .error ⟨503, "Unable to connect to Stellar network. Please try again later."⟩ ∧
      get_account_balances public_key (.otherFailure msg) =
        .error ⟨500, "Internal server error occurred while fetching balance."⟩ ∧
      (∃ r, get_account_balances public_key (.success acct) = .ok r) ∧
      get_wallet_balance public_key outcome = get_account_balances public_key outcome ∧
      ∀ e, get_account_balances public_key outcome = .error e →
        get_wlx_balance public_key outcome = .error e := by
  refine ⟨rfl, rfl, rfl, ⟨_, rfl⟩, ?_, ?_⟩
  · unfold get_wallet_balance
    rw [if_pos hv]
  · intro e he
    unfold get_wlx_balance
    rw [if_pos hv, he]

set_option maxRecDepth 100000 in
set_option exponentiation.threshold 300 in
/-- Witness for C1 at a concrete valid key, message and outcome. -/
theorem C1_failure_kinds_witness :
    get_account_balances gValidKey .notFound =
        .error ⟨404, "Account " ++ gValidKey ++
          " not found on Stellar network. Please verify the public key is correct."⟩ ∧
      get_account_balances gValidKey (.connectionFailure "boom") =
        .error ⟨503, "Unable to connect to Stellar network. Please try again later."⟩ ∧
      get_account_balances gValidKey (.otherFailure "boom") =
        .error ⟨500, "Internal server error occurred while fetching balance."⟩ ∧
      (∃ r, get_account_balances gValidKey (.success acctW) = .ok r) ∧
      get_wallet_balance gValidKey (.otherFailure "boom") =
        get_account_balances gValidKey (.otherFailure "boom") ∧
      ∀ e, get_account_balances gValidKey (.otherFailure "boom") = .error e →
        get_wlx_balance gValidKey (.otherFailure "boom") = .error e :=
  C1_failure_kinds gValidKey "boom" acctW (.otherFailure "boom") (by decide)

/-! ## Lemmas about the strkey decoder -/

theorem b32Val_lt (c : Char) (v : Nat) (h : b32Val c = some v) : v < 32 := by
  unfold b32Val at h
  split_ifs at h with h1 h2
  · injection h with h; omega
  · injection h with h; omega

theorem b32NatAux_none : ∀ cs : List Char, b32NatAux none cs = none := by
  intro cs
  induction cs with
  | nil => rfl
  | cons c cs ih => simpa [b32NatAux] using ih

theorem b32NatAux_bound :
    ∀ (cs : List Char) (m n : Nat), b32NatAux (some m) cs = some n →
      ∃ r, n = m * 32 ^ cs.length + r ∧ r < 32 ^ cs.length := by
  intro cs
  induction cs with
  | nil =>
      intro m n h
      injection h with h
      exact ⟨0, by simp [h], by simp⟩
  | cons c cs ih =>
      intro m n h
      simp only [b32NatAux, Option.some_bind] at h
      cases hb : b32Val c with
      | none =>
          rw [hb] at h
          simp only [Option.map_none'] at h
          rw [b32NatAux_none] at h
          exact absurd h (by simp)
      | some v =>
          rw [hb] at h
          simp only [Option.map_some'] at h
          obtain ⟨r, hr, hrlt⟩ := ih (m * 32 + v) n h
          have hv : v < 32 := b32Val_lt c v hb
          refine ⟨v * 32 ^ cs.length + r, ?_, ?_⟩
          · rw [hr]
            simp only [List.length_cons, pow_succ]
            ring
          · simp only [List.length_cons, pow_succ]
            have h1 : v * 32 ^ cs.length + r < (v + 1) * 32 ^ cs.length := by
              rw [Nat.succ_mul]
              exact Nat.add_lt_add_left hrlt _
            have h2 : (v + 1) * 32 ^ cs.length ≤ 32 * 32 ^ cs.length :=
              Nat.mul_le_mul_right _ (by omega)
            calc v * 32 ^ cs.length + r < (v + 1) * 32 ^ cs.length := h1
              _ ≤ 32 * 32 ^ cs.length := h2
              _ = 32 ^ cs.length * 32 := Nat.mul_comm _ _

/-- Any string the strkey parser accepts starts with `'G'` and has exactly
56 characters. -/
theorem valid_key_head_and_length (s : String)
    (h : is_valid_account_id s = true) :
    s.data.head? = some 'G' ∧ s.length = 56 := by
  unfold is_valid_account_id at h
  cases hsb : strkeyBytes s with
  | none => rw [hsb] at h; exact absurd h (by simp)
  | some bytes =>
      rw [hsb] at h
      have hd := of_decide_eq_true h
      unfold strkeyBytes at hsb
      split_ifs at hsb with hlen
      obtain ⟨n, hn, hbytes⟩ := Option.map_eq_some'.mp hsb
      have hhead : bytes.head? = some (byteAt n 0) := by
        rw [← hbytes]
        rfl
      have hbyte0 : byteAt n 0 = 48 := by
        have h1 := hd.1
        rw [hhead] at h1
        simpa using h1
      have hbyte0' : n / 2 ^ 272 % 256 = 48 := by
        have : byteAt n 0 = n / 2 ^ 272 % 256 := by norm_num [byteAt]
        rw [this] at hbyte0
        exact hbyte0
      cases hdata : s.data with
      | nil => rw [hdata] at hlen; exact absurd hlen (by simp)
      | cons c cs =>
          rw [hdata] at hn hlen
          have hcs : cs.length = 55 := by simpa using hlen
          simp only [b32NatAux, Option.some_bind] at hn
          cases hb : b32Val c with
          | none =>
              rw [hb] at hn
              simp only [Option.map_none'] at hn
              rw [b32NatAux_none] at hn
              exact absurd hn (by simp)
          | some v =>
              rw [hb] at hn
              simp only [Option.map_some', Nat.zero_mul, Nat.zero_add] at hn
              obtain ⟨r, hr, hrlt⟩ := b32NatAux_bound cs v n hn
              rw [hcs] at hr hrlt
              have hK : (32 : ℕ) ^ 55 = 2 ^ 272 * 8 := by norm_num
              rw [hK] at hr hrlt
              have hv : v < 32 := b32Val_lt c v hb
              have hn' : n = r + 2 ^ 272 * (8 * v) := by rw [hr]; ring
              have hq : r / 2 ^ 272 < 8 :=
                (Nat.div_lt_iff_lt_mul (by positivity)).mpr
                  (by calc r < 2 ^ 272 * 8 := hrlt
                        _ = 8 * 2 ^ 272 := Nat.mul_comm _ _)
              rw [hn', Nat.add_mul_div_left _ _ (by positivity)] at hbyte0'
              rw [Nat.mod_eq_of_lt (by omega)] at hbyte0'
              have hv6 : v = 6 := by omega
              have hc71 : c.toNat = 71 := by
                rw [hv6] at hb
                unfold b32Val at hb
                split_ifs at hb with h1 h2
                · injection hb with hb; omega
                · injection hb with hb; omega
              have hcg : c = 'G' := Char.ofNat_toNat c ▸ (hc71 ▸ rfl)
              constructor
              · rw [hcg]
                rfl
              · show s.data.length = 56
                rw [hdata]
                exact hlen

/-! ## Claim C2 -/

set_option maxRecDepth 100000 in
set_option exponentiation.threshold 300 in
/-- C2 counterexample: `'G'` followed by 55 `'A'`s has the structure the
claim says suffices (first character `G`, total length 56), yet the strkey
checksum is invalid, so both wallet endpoints reject it. -/
theorem C2_counterexample :
    gBadKey.data.head? = some 'G' ∧ gBadKey.length = 56 ∧
      is_valid_account_id gBadKey = false ∧
      get_wallet_balance gBadKey (.success acctEmpty) =
        .error ⟨422, "Invalid Stellar public key format"⟩ ∧
      get_wlx_balance gBadKey (.success acctEmpty) =
        .error ⟨400, "Invalid Stellar public key format"⟩ :=
  ⟨rfl, rfl, by decide, rfl, rfl⟩

/-- C2 (amended): a string the wallet endpoints accept necessarily starts
with `'G'` and has total length 56, but the converse fails: acceptance is
the ledger-client's full strkey validation, and a string it rejects gets a
request-validation error (POST) or a 400 with detail
`Invalid Stellar public key format` (GET) whatever the ledger outcome,
hence before any ledger call. -/
theorem C2_key_validation (s : String) (outcome : LedgerOutcome) :
    (is_valid_account_id s = true → s.data.head? = some 'G' ∧ s.length = 56) ∧
      (is_valid_account_id s = false →
        get_wallet_balance s outcome =
            .error ⟨422, "Invalid Stellar public key format"⟩ ∧
          get_wlx_balance s outcome =
            .error ⟨400, "Invalid Stellar public key format"⟩) := by
  refine ⟨valid_key_head_and_length s, fun hf => ⟨?_, ?_⟩⟩
  · unfold get_wallet_balance
    rw [if_neg (by simp [hf])]
  · unfold get_wlx_balance
    rw [if_neg (by simp [hf])]

set_option maxRecDepth 100000 in
set_option exponentiation.threshold 300 in
/-- Witness for C2 at a concrete accepted key and a concrete rejected key. -/
theorem C2_key_validation_witness :
    (gValidKey.data.head? = some 'G' ∧ gValidKey.length = 56) ∧
      (get_wallet_balance gBadKey .notFound =
          .error ⟨422, "Invalid Stellar public key format"⟩ ∧
        get_wlx_balance gBadKey .notFound =
          .error ⟨400, "Invalid Stellar public key format"⟩) :=
  ⟨(C2_key_validation gValidKey .notFound).1 (by decide),
   (C2_key_validation gBadKey .notFound).2 (by decide)⟩

/-! ## Claim C4 -/

/-- C4: the four concrete tier scenarios hold, and for every amount inside a
rule's range the calculator returns that rule's exact label. -/
theorem C4_tier_table :
    tier_for 200 = "0.274–0.819 XLM" ∧ tier_for 598 = "0.274–0.819 XLM" ∧
      tier_for 2000000 = "548+ XLM" ∧ tier_for 150 = "Contact Support" ∧
      (∀ a : ℚ, 200 ≤ a → a ≤ 598 → tier_for a = "0.274–0.819 XLM") ∧
      (∀ a : ℚ, 600 ≤ a → a ≤ 1998 → tier_for a = "0.822–2.739 XLM") ∧
      (∀ a : ℚ, 2000 ≤ a → a ≤ 5998 → tier_for a = "2.740–8.217 XLM") ∧
      (∀ a : ℚ, 6000 ≤ a → a ≤ 19998 → tier_for a = "8.219–27.397 XLM") ∧
      (∀ a : ℚ, 20000 ≤ a → a ≤ 49998 → tier_for a = "27.397–68.475 XLM") ∧
      (∀ a : ℚ, 50000 ≤ a → a ≤ 99998 → tier_for a = "68.475–136.986 XLM") ∧
      (∀ a : ℚ, 100000 ≤ a → a ≤ 200000 → tier_for a = "137–274 XLM") ∧
      (∀ a : ℚ, 240000 ≤ a → a ≤ 400000 → tier_for a = "329–548 XLM") ∧
      (∀ a : ℚ, 400000 < a → tier_for a = "548+ XLM") := by
  refine ⟨by decide, by decide, by decide, by decide,
    ?_, ?_, ?_, ?_, ?_, ?_, ?_, ?_, ?_⟩
  · intro a h1 h2
    simp only [tier_for]
    rw [if_pos ⟨h1, h2⟩]
  · intro a h1 h2
    have n1 : ¬((200 : ℚ) ≤ a ∧ a ≤ 598) := by rintro ⟨-, w⟩; linarith
    simp only [tier_for]
    rw [if_neg n1, if_pos ⟨h1, h2⟩]
  · intro a h1 h2
    have n1 : ¬((200 : ℚ) ≤ a ∧ a ≤ 598) := by rintro ⟨-, w⟩; linarith
    have n2 : ¬((600 : ℚ) ≤ a ∧ a ≤ 1998) := by rintro ⟨-, w⟩; linarith
    simp only [tier_for]
    rw [if_neg n1, if_neg n2, if_pos ⟨h1, h2⟩]
  · intro a h1 h2
    have n1 : ¬((200 : ℚ) ≤ a ∧ a ≤ 598) := by rintro ⟨-, w⟩; linarith
    have n2 : ¬((600 : ℚ) ≤ a ∧ a ≤ 1998) := by rintro ⟨-, w⟩; linarith
    have n3 : ¬((2000 : ℚ) ≤ a ∧ a ≤ 5998) := by rintro ⟨-, w⟩; linarith
    simp only [tier_for]
    rw [if_neg n1, if_neg n2, if_neg n3, if_pos ⟨h1, h2⟩]
  · intro a h1 h2
    have n1 : ¬((200 : ℚ) ≤ a ∧ a ≤ 598) := by rintro ⟨-, w⟩; linarith
    have n2 : ¬((600 : ℚ) ≤ a ∧ a ≤ 1998) := by rintro ⟨-, w⟩; linarith
    have n3 : ¬((2000 : ℚ) ≤ a ∧ a ≤ 5998) := by rintro ⟨-, w⟩; linarith
    have n4 : ¬((6000 : ℚ) ≤ a ∧ a ≤ 19998) := by rintro ⟨-, w⟩; linarith
    simp only [tier_for]
    rw [if_neg n1, if_neg n2, if_neg n3, if_neg n4, if_pos ⟨h1, h2⟩]
  · intro a h1 h2
    have n1 : ¬((200 : ℚ) ≤ a ∧ a ≤ 598) := by rintro ⟨-, w⟩; linarith
    have n2 : ¬((600 : ℚ) ≤ a ∧ a ≤ 1998) := by rintro ⟨-, w⟩; linarith
    have n3 : ¬((2000 : ℚ) ≤ a ∧ a ≤ 5998) := by rintro ⟨-, w⟩; linarith
    have n4 : ¬((6000 : ℚ) ≤ a ∧ a ≤ 19998) := by rintro ⟨-, w⟩; linarith
    have n5 : ¬((20000 : ℚ) ≤ a ∧ a ≤ 49998) := by rintro ⟨-, w⟩; linarith
    simp only [tier_for]
    rw [if_neg n1, if_neg n2, if_neg n3, if_neg n4, if_neg n5, if_pos ⟨h1, h2⟩]
  · intro a h1 h2
    have n1 : ¬((200 : ℚ) ≤ a ∧ a ≤ 598) := by rintro ⟨-, w⟩; linarith
    have n2 : ¬((600 : ℚ) ≤ a ∧ a ≤ 1998) := by rintro ⟨-, w⟩; linarith
    have n3 : ¬((2000 : ℚ) ≤ a ∧ a ≤ 5998) := by rintro ⟨-, w⟩; linarith
    have n4 : ¬((6000 : ℚ) ≤ a ∧ a ≤ 19998) := by rintro ⟨-, w⟩; linarith
    have n5 : ¬((20000 : ℚ) ≤ a ∧ a ≤ 49998) := by rintro ⟨-, w⟩; linarith
    have n6 : ¬((50000 : ℚ) ≤ a ∧ a ≤ 99998) := by rintro ⟨-, w⟩; linarith
    simp only [tier_for]
    rw [if_neg n1, if_neg n2, if_neg n3, if_neg n4, if_neg n5, if_neg n6,
      if_pos ⟨h1, h2⟩]
  · intro a h1 h2
    have n1 : ¬((200 : ℚ) ≤ a ∧ a ≤ 598) := by rintro ⟨-, w⟩; linarith
    have n2 : ¬((600 : ℚ) ≤ a ∧ a ≤ 1998) := by rintro ⟨-, w⟩; linarith
    have n3 : ¬((2000 : ℚ) ≤ a ∧ a ≤ 5998) := by rintro ⟨-, w⟩; linarith
    have n4 : ¬((6000 : ℚ) ≤ a ∧ a ≤ 19998) := by rintro ⟨-, w⟩; linarith
    have n5 : ¬((20000 : ℚ) ≤ a ∧ a ≤ 49998) := by rintro ⟨-, w⟩; linarith
    have n6 : ¬((50000 : ℚ) ≤ a ∧ a ≤ 99998) := by rintro ⟨-, w⟩; linarith
    have n7 : ¬((100000 : ℚ) ≤ a ∧ a ≤ 200000) := by rintro ⟨-, w⟩; linarith
    simp only [tier_for]
    rw [if_neg n1, if_neg n2, if_neg n3, if_neg n4, if_neg n5, if_neg n6,
      if_neg n7, if_pos ⟨h1, h2⟩]
  · intro a h1
    have n1 : ¬((200 : ℚ) ≤ a ∧ a ≤ 598) := by rintro ⟨-, w⟩; linarith
    have n2 : ¬((600 : ℚ) ≤ a ∧ a ≤ 1998) := by rintro ⟨-, w⟩; linarith
    have n3 : ¬((2000 : ℚ) ≤ a ∧ a ≤ 5998) := by rintro ⟨-, w⟩; linarith
    have n4 : ¬((6000 : ℚ) ≤ a ∧ a ≤ 19998) := by rintro ⟨-, w⟩; linarith
    have n5 : ¬((20000 : ℚ) ≤ a ∧ a ≤ 49998) := by rintro ⟨-, w⟩; linarith
    have n6 : ¬((50000 : ℚ) ≤ a ∧ a ≤ 99998) := by rintro ⟨-, w⟩; linarith
    have n7 : ¬((100000 : ℚ) ≤ a ∧ a ≤ 200000) := by rintro ⟨-, w⟩; linarith
    have n8 : ¬((240000 : ℚ) ≤ a ∧ a ≤ 400000) := by rintro ⟨-, w⟩; linarith
    simp only [tier_for]
    rw [if_neg n1, if_neg n2, if_neg n3, if_neg n4, if_neg n5, if_neg n6,
      if_neg n7, if_neg n8, if_pos h1]

/-- Witness for C4: one amount inside each rule's range. -/
theorem C4_tier_table_witness :
    tier_for 300 = "0.274–0.819 XLM" ∧ tier_for 1000 = "0.822–2.739 XLM" ∧
      tier_for 3000 = "2.740–8.217 XLM" ∧ tier_for 10000 = "8.219–27.397 XLM" ∧
      tier_for 30000 = "27.397–68.475 XLM" ∧
      tier_for 60000 = "68.475–136.986 XLM" ∧ tier_for 150000 = "137–274 XLM" ∧
      tier_for 300000 = "329–548 XLM" ∧ tier_for 500000 = "548+ XLM" :=
  ⟨C4_tier_table.2.2.2.2.1 300 (by decide) (by decide),
   C4_tier_table.2.2.2.2.2.1 1000 (by decide) (by decide),
   C4_tier_table.2.2.2.2.2.2.1 3000 (by decide) (by decide),
   C4_tier_table.2.2.2.2.2.2.2.1 10000 (by decide) (by decide),
   C4_tier_table.2.2.2.2.2.2.2.2.1 30000 (by decide) (by decide),
   C4_tier_table.2.2.2.2.2.2.2.2.2.1 60000 (by decide) (by decide),
   C4_tier_table.2.2.2.2.2.2.2.2.2.2.1 150000 (by decide) (by decide),
   C4_tier_table.2.2.2.2.2.2.2.2.2.2.2.1 300000 (by decide) (by decide),
   C4_tier_table.2.2.2.2.2.2.2.2.2.2.2.2 500000 (by decide)⟩

/-! ## Claim C5 -/

/-- C5: every amount no rule covers gets the sentinel `"Contact Support"`;
in particular amounts up to 199, the amount 599, and the whole
200001–239999 gap. -/
theorem C5_tier_gaps :
    (∀ a : ℚ, 0 ≤ a → a ≤ 199 → tier_for a = "Contact Support") ∧
      tier_for 599 = "Contact Support" ∧
      (∀ a : ℚ, 200001 ≤ a → a ≤ 239999 → tier_for a = "Contact Support") ∧
      (∀ a : ℚ, ¬(200 ≤ a ∧ a ≤ 598) → ¬(600 ≤ a ∧ a ≤ 1998) →
        ¬(2000 ≤ a ∧ a ≤ 5998) → ¬(6000 ≤ a ∧ a ≤ 19998) →
        ¬(20000 ≤ a ∧ a ≤ 49998) → ¬(50000 ≤ a ∧ a ≤ 99998) →
        ¬(100000 ≤ a ∧ a ≤ 200000) → ¬(240000 ≤ a ∧ a ≤ 400000) →
        ¬(400000 < a) → tier_for a = "Contact Support") := by
  have hgen : ∀ a : ℚ, ¬(200 ≤ a ∧ a ≤ 598) → ¬(600 ≤ a ∧ a ≤ 1998) →
      ¬(2000 ≤ a ∧ a ≤ 5998) → ¬(6000 ≤ a ∧ a ≤ 19998) →
      ¬(20000 ≤ a ∧ a ≤ 49998) → ¬(50000 ≤ a ∧ a ≤ 99998) →
      ¬(100000 ≤ a ∧ a ≤ 200000) → ¬(240000 ≤ a ∧ a ≤ 400000) →
      ¬(400000 < a) → tier_for a = "Contact Support" := by
    intro a n1 n2 n3 n4 n5 n6 n7 n8 n9
    simp only [tier_for]
    rw [if_neg n1, if_neg n2, if_neg n3, if_neg n4, if_neg n5, if_neg n6,
      if_neg n7, if_neg n8, if_neg n9]
  refine ⟨?_, by decide, ?_, hgen⟩
  · intro a h1 h2
    exact hgen a (by rintro ⟨u, -⟩; linarith) (by rintro ⟨u, -⟩; linarith)
      (by rintro ⟨u, -⟩; linarith) (by rintro ⟨u, -⟩; linarith)
      (by rintro ⟨u, -⟩; linarith) (by rintro ⟨u, -⟩; linarith)
      (by rintro ⟨u, -⟩; linarith) (by rintro ⟨u, -⟩; linarith)
      (by intro u; linarith)
  · intro a h1 h2
    exact hgen a (by rintro ⟨-, w⟩; linarith) (by rintro ⟨-, w⟩; linarith)
      (by rintro ⟨-, w⟩; linarith) (by rintro ⟨-, w⟩; linarith)
      (by rintro ⟨-, w⟩; linarith) (by rintro ⟨-, w⟩; linarith)
      (by rintro ⟨-, w⟩; linarith) (by rintro ⟨u, -⟩; linarith)
      (by intro u; linarith)

/-- Witness for C5: concrete uncovered amounts. -/
theorem C5_tier_gaps_witness :
    tier_for 0 = "Contact Support" ∧ tier_for 199 = "Contact Support" ∧
      tier_for 200001 = "Contact Support" ∧
      tier_for 239999 = "Contact Support" ∧ tier_for 1999 = "Contact Support" :=
  ⟨C5_tier_gaps.1 0 (by decide) (by decide),
   C5_tier_gaps.1 199 (by decide) (by decide),
   C5_tier_gaps.2.2.1 200001 (by decide) (by decide),
   C5_tier_gaps.2.2.1 239999 (by decide) (by decide),
   C5_tier_gaps.2.2.2 1999 (by decide) (by decide) (by decide) (by decide)
     (by decide) (by decide) (by decide) (by decide) (by decide)⟩

/-! ## Claim C6 -/

/-- The 1001st inserted record is not among the (at most 1000) listed
records. -/
theorem ryStatus_not_listed : ryStatus ∉ get_status_checks overfullStore := by
  intro hmem
  unfold get_status_checks overfullStore at hmem
  rw [List.take_left' (List.length_replicate 1000 rxStatus)] at hmem
  exact absurd (List.eq_of_mem_replicate hmem) (by decide)

/-- C6 counterexample: with 1001 records stored, the listed sequence omits
one stored record, so GET /api/status does not return every stored record
and is bounded at 1000. -/
theorem C6_counterexample :
    ryStatus ∈ overfullStore ∧ ryStatus ∉ get_status_checks overfullStore :=
  ⟨List.mem_append_right _ (List.mem_singleton_self _), ryStatus_not_listed⟩

/-- C6 (amended): GET /api/status returns the first 1000 stored records;
whenever at most 1000 records are stored, it returns every stored record. -/
theorem C6_list_all (store : List StatusCheck) (h : store.length ≤ 1000) :
    get_status_checks store = store ∧
      ∀ r ∈ store, r ∈ get_status_checks store := by
  have heq : get_status_checks store = store := List.take_of_length_le h
  exact ⟨heq, fun r hr => by rw [heq]; exact hr⟩

/-- Witness for C6 at a one-record store. -/
theorem C6_list_all_witness :
    get_status_checks [rxStatus] = [rxStatus] ∧
      ∀ r ∈ [rxStatus], r ∈ get_status_checks [rxStatus] :=
  C6_list_all [rxStatus] (by decide)

/-! ## Claim C10 -/

/-- C10 counterexample: with 1000 records already stored, the record
returned by POST /api/status is inserted into the store but a subsequent
GET /api/status does not contain it. -/
theorem C10_counterexample :
    (create_status_check (List.replicate 1000 rxStatus) ⟨"client"⟩ "id-b" 0).2 =
        List.replicate 1000 rxStatus ++
          [(create_status_check (List.replicate 1000 rxStatus) ⟨"client"⟩ "id-b" 0).1] ∧
      (create_status_check (List.replicate 1000 rxStatus) ⟨"client"⟩ "id-b" 0).1 ∉
        get_status_checks
          (create_status_check (List.replicate 1000 rxStatus) ⟨"client"⟩ "id-b" 0).2 :=
  ⟨rfl, ryStatus_not_listed⟩

/-- C10 (amended): the response of POST /api/status is exactly the stored
document (same id, client name and timestamp), and a subsequent list
contains it provided the store holds at most 1000 records. -/
theorem C10_create_roundtrip (store : List StatusCheck)
    (input : StatusCheckCreate) (gen_id : String) (gen_ts : Nat) :
    (create_status_check store input gen_id gen_ts).2 =
        store ++ [(create_status_check store input gen_id gen_ts).1] ∧
      (create_status_check store input gen_id gen_ts).1 =
        (⟨gen_id, input.client_name, gen_ts⟩ : StatusCheck) ∧
      ((create_status_check store input gen_id gen_ts).2.length ≤ 1000 →
        (create_status_check store input gen_id gen_ts).1 ∈
          get_status_checks (create_status_check store input gen_id gen_ts).2) := by
  refine ⟨rfl, rfl, fun h => ?_⟩
  show _ ∈ (create_status_check store input gen_id gen_ts).2.take 1000
  rw [List.take_of_length_le h]
  exact List.mem_append_right _ (List.mem_singleton_self _)

/-- Witness for C10 at an empty store. -/
theorem C10_create_roundtrip_witness :
    (create_status_check [] ⟨"client"⟩ "id-a" 0).1 ∈
      get_status_checks (create_status_check [] ⟨"client"⟩ "id-a" 0).2 :=
  (C10_create_roundtrip [] ⟨"client"⟩ "id-a" 0).2.2 (by decide)

/-! ## Claim C7 -/

/-- C7 counterexample: assigning ledger-URL and issuer environment variables
does not change the values the service uses; they remain the built-in
constants of lines 33–34. -/
theorem C7_counterexample :
    envOverride "STELLAR_HORIZON_URL" = some "http://horizon.example" ∧
      effective_horizon_url envOverride ≠ "http://horizon.example" ∧
      envOverride "WLX_ISSUER" =
        some "GOTHERISSUERXXXXXXXXXXXXXXXXXXXXXXXXXXXXXXXXXXXXXXXXXXXX" ∧
      effective_wlx_issuer envOverride ≠
        "GOTHERISSUERXXXXXXXXXXXXXXXXXXXXXXXXXXXXXXXXXXXXXXXXXXXX" :=
  ⟨rfl, by decide, rfl, by decide⟩

/-- C7 (amended): the database connection string, the database name and the
allowed CORS origins are taken from the environment, while the ledger
endpoint URL and the tracked-asset issuer are fixed constants that ignore
the environment. -/
theorem C7_configuration (env : String → Option String) (u d c : String) :
    (env "MONGO_URL" = some u → mongo_url env = some u) ∧
      (env "DB_NAME" = some d → db_name env = some d) ∧
      (env "CORS_ORIGINS" = some c → cors_origins env = c.splitOn ",") ∧
      (env "CORS_ORIGINS" = none → cors_origins env = "*".splitOn ",") ∧
      effective_horizon_url env = "https://horizon.stellar.org" ∧
      effective_wlx_issuer env =
        "GBG5YTLEZ6PLZ33TIF2IGYPAEJ66ES4A5JOX7SRQVEZY55WRACDEWZPV" := by
  refine ⟨fun h => h, fun h => h, fun h => ?_, fun h => ?_, rfl, rfl⟩
  · unfold cors_origins
    rw [h]
    exact rfl
  · unfold cors_origins
    rw [h]
    exact rfl

/-- Witness for C7 at concrete environments. -/
theorem C7_configuration_witness :
    mongo_url envFull = some "mongodb://localhost:27017" ∧
      db_name envFull = some "wlx" ∧
      cors_origins envFull = "http://a.example,http://b.example".splitOn "," ∧
      cors_origins (fun _ => none) = "*".splitOn "," :=
  ⟨(C7_configuration envFull "mongodb://localhost:27017" "wlx"
      "http://a.example,http://b.example").1 (by decide),
   (C7_configuration envFull "mongodb://localhost:27017" "wlx"
      "http://a.example,http://b.example").2.1 (by decide),
   (C7_configuration envFull "mongodb://localhost:27017" "wlx"
      "http://a.example,http://b.example").2.2.1 (by decide),
   (C7_configuration (fun _ => none) "" "" "").2.2.2.1 rfl⟩

end WlxBackend
